import Mathlib

/-!
Verification of the blackhole-server capture-and-archive pipeline.

The definitions below are a shallow embedding of the Python sources:
bytes are `Nat` values below 256, datagrams are `List Nat`, Python floats
on exact fixed-point data are `ℚ`, fallible Python code returns
`Except PyErr`, and `Option` models Python `None`.  Wall-clock inputs
(`datetime.now()` fields, the current timecode) are passed as explicit
arguments.  Each definition cites the source location it embeds.
-/

namespace Blackhole

/-- Python exception classes that the embedded code can raise. -/
inductive PyErr
  | attributeError
  | nameError
  | typeError
  | valueError
  | moduleNotFoundError
deriving DecidableEq, Repr

/-! ## Timecode utility (database_utils.py) -/

/-- Embeds the seconds value computed by
`database_utils.get_system_timecode_as_frames` (lines 38-41):
`system_time_seconds = ((hour * 60 + minute) * 60 + second + microsecond)`.
Note the raw `microsecond` count is added as whole seconds. -/
def systemTimeSeconds (hour minute second microsecond : Nat) : Nat :=
  (hour * 60 + minute) * 60 + second + microsecond

/-- Modelled from the spec: the seconds-of-day formula stated in the spec,
`hour*3600 + minute*60 + second + microsecond/1e6`, for comparison with
`systemTimeSeconds`. -/
def specSecondsOfDay (hour minute second microsecond : Nat) : ℚ :=
  (hour : ℚ) * 3600 + (minute : ℚ) * 60 + (second : ℚ) + (microsecond : ℚ) / 1000000

/-! ## FreeD packet decoder (device_capture/freed_capture.py) -/

/-- One step of the checksum loop of `FreeDPacket.checksum_valid`
(freed_capture.py line 92): `sum_remaining = (sum_remaining - byte) & 0xFF`.
On a value in `[0, 256)` the Python bit-mask agrees with `Int.emod` by 256. -/
def checksumStep (acc : Int) (b : Nat) : Int :=
  (acc - (b : Int)) % 256

/-- The accumulator left by `FreeDPacket.checksum_valid` after folding the
packet bytes, starting from `0x40` (freed_capture.py lines 89-92). -/
def checksumFold (bytes : List Nat) : Int :=
  bytes.foldl checksumStep 0x40

/-- Embeds `FreeDPacket.checksum_valid` (freed_capture.py lines 82-94):
the packet is valid iff the final accumulator is zero. -/
def checksum_valid (bytes : List Nat) : Bool :=
  checksumFold bytes == 0

/-- The sum of the packet bytes as an integer, used to state the spec's
characterisation of the checksum. -/
def byteSum (bytes : List Nat) : Int :=
  (bytes.map (fun b => (b : Int))).sum

/-- Big-endian reassembly of two bytes (`int.from_bytes(..., byteorder='big')`). -/
def bytes2ToNat (b0 b1 : Nat) : Nat :=
  b0 * 256 + b1

/-- Big-endian reassembly of three bytes. -/
def bytes3ToNat (b0 b1 b2 : Nat) : Nat :=
  b0 * 65536 + b1 * 256 + b2

/-- Signed big-endian reassembly of three bytes
(`int.from_bytes(..., byteorder='big', signed=True)` in
`FreeDPacket.get_freed_float`, freed_capture.py line 77): values at or
above `2^23` represent negatives of a 24-bit two's-complement field. -/
def bytes3ToInt (b0 b1 b2 : Nat) : Int :=
  if bytes3ToNat b0 b1 b2 < 8388608 then (bytes3ToNat b0 b1 b2 : Int)
  else (bytes3ToNat b0 b1 b2 : Int) - 16777216

/-- Embeds `FreeDPacket.get_freed_float` (freed_capture.py lines 76-80):
the signed 24-bit value divided by `2 ^ fractional_byte_size`.  The Python
float arithmetic is exact here (24-bit integers over a power of two), so
`ℚ` is a faithful carrier. -/
def get_freed_float (b0 b1 b2 : Nat) (fractional_byte_size : Nat) : ℚ :=
  (bytes3ToInt b0 b1 b2 : ℚ) / ((2 : ℚ) ^ fractional_byte_size)

/-- The attributes that `FreeDPacket.__init__` assigns when the length check
passes (freed_capture.py lines 30-63). -/
structure FreeDFields where
  packetBytes : List Nat
  cam_id : Nat
  rot_pan : ℚ
  rot_tilt : ℚ
  rot_roll : ℚ
  pos_x : ℚ
  pos_y : ℚ
  pos_z : ℚ
  zoom : Nat
  focus : Nat
  spare : Nat
  checksum : Nat
deriving DecidableEq, Repr

/-- A `FreeDPacket` instance.  `fields = none` models the object produced
when `__init__` hits the length check (freed_capture.py lines 26-28) and
returns early: the instance exists but none of its attributes were assigned,
so every later attribute access raises `AttributeError`. -/
structure FreeDPacket where
  fields : Option FreeDFields
deriving DecidableEq, Repr

/-- Embeds `FreeDPacket.__init__` (freed_capture.py lines 25-63).  The
`struct.unpack('!cc3s3s3s3s3s3s3s3s2sc', ...)` split is the 29-element
pattern; any other length takes the early-return branch. -/
def FreeDPacket.init (packet_data : List Nat) : FreeDPacket :=
  match packet_data with
  | [mt, cam, p0, p1, p2, t0, t1, t2, r0, r1, r2,
     x0, x1, x2, y0, y1, y2, z0, z1, z2,
     zm0, zm1, zm2, f0, f1, f2, s0, s1, ck] =>
    ⟨some
      { packetBytes := [mt, cam, p0, p1, p2, t0, t1, t2, r0, r1, r2,
          x0, x1, x2, y0, y1, y2, z0, z1, z2, zm0, zm1, zm2, f0, f1, f2, s0, s1, ck]
        cam_id := cam
        rot_pan := get_freed_float p0 p1 p2 15
        rot_tilt := get_freed_float t0 t1 t2 15
        rot_roll := get_freed_float r0 r1 r2 15
        pos_x := get_freed_float x0 x1 x2 6
        pos_y := get_freed_float y0 y1 y2 6
        pos_z := get_freed_float z0 z1 z2 6
        zoom := bytes3ToNat zm0 zm1 zm2
        focus := bytes3ToNat f0 f1 f2
        spare := bytes2ToNat s0 s1
        checksum := ck }⟩
  | _ => ⟨none⟩

/-- Embeds the `checksum_valid` method call on a packet object: when the
length check failed, `self.packetBytes` was never assigned and the access
raises `AttributeError` (freed_capture.py line 91). -/
def FreeDPacket.checksum_validM (p : FreeDPacket) : Except PyErr Bool :=
  match p.fields with
  | none => Except.error PyErr.attributeError
  | some f => Except.ok (checksum_valid f.packetBytes)

/-- Embeds `FreeDCaptureThread.parse_packet` (freed_capture.py lines 145-152):
a datagram whose first byte is `0xD1` is decoded, anything else yields `None`. -/
def parse_packet (packet_bytes : List Nat) : Option FreeDPacket :=
  if packet_bytes.head? = some 0xD1 then some (FreeDPacket.init packet_bytes) else none

/-- Embeds `FreeDCaptureThread.validate_parsed_data` (freed_capture.py
lines 154-158): `None` fails validation, otherwise the checksum method runs
(and can raise on a half-initialised packet). -/
def validate_parsed_data (parsed_packet : Option FreeDPacket) : Except PyErr Bool :=
  match parsed_packet with
  | none => Except.ok false
  | some pkt => pkt.checksum_validM

/-! ## Tracking samples and the capture thread (base_capture.py, freed_capture.py) -/

/-- One tracking sample as built by `FreeDCaptureThread.package_frame_data`:
USD-space position and rotation plus the timecode key. -/
structure Sample where
  xpos : ℚ
  ypos : ℚ
  zpos : ℚ
  pitch : ℚ
  yaw : ℚ
  roll : ℚ
  timecodeKey : Int
deriving DecidableEq, Repr

/-- Embeds the field assignments of `FreeDCaptureThread.package_frame_data`
(freed_capture.py lines 133-141).  `tc` is the value returned by
`utils.get_system_timecode_as_frames(self.frame_rate)` at that instant. -/
def package_frame_data (f : FreeDFields) (tc : Int) : Sample :=
  { xpos := f.pos_y / 10
    ypos := f.pos_z / 10
    zpos := f.pos_x / 10
    pitch := f.rot_tilt
    yaw := -(f.rot_pan + 90)
    roll := f.rot_roll
    timecodeKey := tc }

/-- The runtime shape of `self.captured_tracking_data`: `BaseCaptureThread.__init__`
assigns a dict (base_capture.py line 147) while `FreeDCaptureThread.cache_parsed_data`
treats it as a list (freed_capture.py line 162). -/
inductive PyBuffer
  | dict (entries : List (String × List Sample))
  | list (samples : List Sample)
deriving DecidableEq, Repr

/-- Attribute-access semantics of `package_frame_data(parsed_packet)`:
`None` or a half-initialised packet raises `AttributeError` when its fields
are read (freed_capture.py lines 133-139). -/
def package_frame_dataM (p : Option FreeDPacket) (tc : Int) : Except PyErr Sample :=
  match p with
  | none => Except.error PyErr.attributeError
  | some pkt =>
    match pkt.fields with
    | none => Except.error PyErr.attributeError
    | some f => Except.ok (package_frame_data f tc)

/-- Embeds `FreeDCaptureThread.cache_parsed_data` (freed_capture.py
lines 160-162): build the sample, then call
`self.captured_tracking_data.append(transform_data)`.  A Python dict has no
`append` attribute, so the call raises `AttributeError` when the buffer is
the dict installed by `BaseCaptureThread.__init__`. -/
def cache_parsed_data (buf : PyBuffer) (p : Option FreeDPacket) (tc : Int) :
    Except PyErr PyBuffer :=
  match package_frame_dataM p tc with
  | Except.error e => Except.error e
  | Except.ok sample =>
    match buf with
    | PyBuffer.list xs => Except.ok (PyBuffer.list (xs ++ [sample]))
    | PyBuffer.dict _ => Except.error PyErr.attributeError

/-- The per-thread state touched by one iteration of `BaseCaptureThread.run`. -/
structure CaptureState where
  captured_tracking_data : PyBuffer
deriving DecidableEq, Repr

/-- The state of a freshly constructed `FreeDCaptureThread`:
`BaseCaptureThread.__init__` (base_capture.py line 147) sets
`self.captured_tracking_data = dict()`. -/
def initFreeDThread : CaptureState :=
  { captured_tracking_data := PyBuffer.dict [] }

/-- Outcome of one loop iteration of `BaseCaptureThread.run`
(base_capture.py lines 208-226): either the loop continues with an updated
state, or an exception was raised and caught by the `except` clause, ending
the receive loop (the `finally` clause then publishes `data_to_export`). -/
inductive StepResult
  | next (st : CaptureState)
  | raised (st : CaptureState) (e : PyErr)
deriving DecidableEq, Repr

/-- Embeds the body of the receive loop of `BaseCaptureThread.run`
(base_capture.py lines 213-219) for a `FreeDCaptureThread`: parse the
datagram, validate, and cache when valid.  `tc` is the current timecode. -/
def runStep (st : CaptureState) (datagram : List Nat) (tc : Int) : StepResult :=
  let tracking_data := parse_packet datagram
  match validate_parsed_data tracking_data with
  | Except.error e => StepResult.raised st e
  | Except.ok true =>
    match cache_parsed_data st.captured_tracking_data tracking_data tc with
    | Except.error e => StepResult.raised st e
    | Except.ok buf => StepResult.next { captured_tracking_data := buf }
  | Except.ok false => StepResult.next st

/-! ## Wire encoding of a FreeD packet (for the round-trip claim) -/

/-- A FreeD packet presented by its wire fields: the 24-bit fixed-point
quantities by their signed raw integers, the unsigned fields by naturals. -/
structure FreeDRaw where
  camId : Nat
  pan : Int
  tilt : Int
  roll : Int
  x : Int
  y : Int
  z : Int
  zoom : Nat
  focus : Nat
  spare : Nat
  checksum : Nat
deriving DecidableEq, Repr

/-- Range conditions making `FreeDRaw` a valid wire packet: one byte of
camera id, 24-bit two's-complement signed fields, 24-bit unsigned zoom and
focus, 16-bit spare, one checksum byte. -/
def FreeDRaw.InRange (p : FreeDRaw) : Prop :=
  p.camId < 256 ∧
  -8388608 ≤ p.pan ∧ p.pan < 8388608 ∧
  -8388608 ≤ p.tilt ∧ p.tilt < 8388608 ∧
  -8388608 ≤ p.roll ∧ p.roll < 8388608 ∧
  -8388608 ≤ p.x ∧ p.x < 8388608 ∧
  -8388608 ≤ p.y ∧ p.y < 8388608 ∧
  -8388608 ≤ p.z ∧ p.z < 8388608 ∧
  p.zoom < 16777216 ∧ p.focus < 16777216 ∧ p.spare < 65536 ∧ p.checksum < 256

instance (p : FreeDRaw) : Decidable p.InRange := by
  unfold FreeDRaw.InRange
  infer_instance

/-- Big-endian bytes of a 24-bit two's-complement field. -/
def int24Bytes (r : Int) : List Nat :=
  [(r % 16777216).toNat / 65536, (r % 16777216).toNat / 256 % 256, (r % 16777216).toNat % 256]

/-- Big-endian bytes of a 24-bit unsigned field. -/
def nat24Bytes (n : Nat) : List Nat :=
  [n / 65536, n / 256 % 256, n % 256]

/-- Big-endian bytes of a 16-bit unsigned field. -/
def nat16Bytes (n : Nat) : List Nat :=
  [n / 256, n % 256]

/-- Modelled from the spec: the source repository contains no encoder, so
the 29-byte wire frame is built following the spec's layout (byte 0 the
message type `0xD1`, byte 1 the camera id, three signed 24-bit rotations,
three signed 24-bit positions, unsigned 24-bit zoom and focus, 16-bit
spare, one checksum byte; big-endian throughout). -/
def encodeFreeD (p : FreeDRaw) : List Nat :=
  [0xD1, p.camId] ++ int24Bytes p.pan ++ int24Bytes p.tilt ++ int24Bytes p.roll ++
    int24Bytes p.x ++ int24Bytes p.y ++ int24Bytes p.z ++
    nat24Bytes p.zoom ++ nat24Bytes p.focus ++ nat16Bytes p.spare ++ [p.checksum]

/-- The decoded attribute record determined by a raw wire packet: each
fixed-point field is its raw integer over the documented power of two. -/
def fieldsOfRaw (p : FreeDRaw) : FreeDFields :=
  { packetBytes := encodeFreeD p
    cam_id := p.camId
    rot_pan := (p.pan : ℚ) / ((2 : ℚ) ^ (15 : Nat))
    rot_tilt := (p.tilt : ℚ) / ((2 : ℚ) ^ (15 : Nat))
    rot_roll := (p.roll : ℚ) / ((2 : ℚ) ^ (15 : Nat))
    pos_x := (p.x : ℚ) / ((2 : ℚ) ^ (6 : Nat))
    pos_y := (p.y : ℚ) / ((2 : ℚ) ^ (6 : Nat))
    pos_z := (p.z : ℚ) / ((2 : ℚ) ^ (6 : Nat))
    zoom := p.zoom
    focus := p.focus
    spare := p.spare
    checksum := p.checksum }

/-! ## Recording session capture loop (recording.py) -/

/-- One device section of `blackhole_config/device_config.ini` as read by
`Recording.start_capturing_data`. -/
structure DeviceConf where
  port : Nat
  trackingProtocol : String
deriving DecidableEq, Repr

/-- Embeds the device loop of `Recording.start_capturing_data`
(recording.py lines 61-86).  Each iteration first runs the duplicate-name
check against `devices` (line 63, `raise ValueError`), then executes
`thread_devices.add(device_name)` (line 65) — but `thread_devices` is never
defined anywhere in the module (the set created on line 59 is named
`devices`), so the statement raises `NameError`.  The rest of the loop body
(lines 67-86) and the join/consolidation code (lines 88-100) are
unreachable whenever a section exists. -/
def startCapturingLoop (devices : List String) :
    List (String × DeviceConf) → Except PyErr (List String)
  | [] => Except.ok devices
  | (device_name, _conf) :: _rest =>
    if devices.contains device_name then Except.error PyErr.valueError
    else Except.error PyErr.nameError

/-- Embeds `Recording.start_capturing_data` (recording.py lines 57-100):
run the device loop; with no sections configured no thread is started and
the consolidated capture data is the empty mapping. -/
def start_capturing_data (sections : List (String × DeviceConf)) :
    Except PyErr (List (String × List Sample)) :=
  match startCapturingLoop [] sections with
  | Except.error e => Except.error e
  | Except.ok _ => Except.ok []

/-! ## Capture supervisor (device_capture/capture_factory.py) -/

/-- A capture thread as registered by `CaptureThreadFactory`: the factory
currently always builds the single-device `FreeDCaptureThread`
(capture_factory.py line 58). -/
structure CaptureThreadModel where
  deviceName : String
  port : Nat
  threadProtocol : String
deriving DecidableEq, Repr

/-- Embeds the device loop of `CaptureThreadFactory.create_capture_threads`
(capture_factory.py lines 26-66).  `assigned` mirrors the `assigned_ports`
dict in insertion order and `devices` the `devices_to_capture` list.
When the port is already assigned, the conflict check
`issubclass(assigned_thread, MultiDeviceCaptureThread)` (line 40) receives
the stored thread *instance* where `issubclass` requires a class, so Python
raises `TypeError` before either conflict branch can log and skip.  Only
`socket.gaierror` is caught in this loop, so the `TypeError` propagates.
An unknown protocol makes `importlib.import_module` (line 50) raise
`ModuleNotFoundError`, which is likewise uncaught. -/
def createLoop (assigned : List (Nat × CaptureThreadModel)) (devices : List String) :
    List (String × DeviceConf) → Except PyErr (List (Nat × CaptureThreadModel))
  | [] => Except.ok assigned
  | (device_name, config) :: rest =>
    if devices.contains device_name then Except.error PyErr.valueError
    else if (assigned.map Prod.fst).contains config.port then Except.error PyErr.typeError
    else if config.trackingProtocol ≠ "FreeD" then Except.error PyErr.moduleNotFoundError
    else
      createLoop
        (assigned ++ [(config.port, ⟨device_name, config.port, config.trackingProtocol⟩)])
        (devices ++ [device_name]) rest

/-- Embeds `CaptureThreadFactory.create_capture_threads`
(capture_factory.py lines 12-68): run the device loop and return the values
of `assigned_ports` in insertion order. -/
def create_capture_threads (device_configs : List (String × DeviceConf)) :
    Except PyErr (List CaptureThreadModel) :=
  match createLoop [] [] device_configs with
  | Except.error e => Except.error e
  | Except.ok assigned => Except.ok (assigned.map Prod.snd)

/-! ## USD archive writer time samples (usd_export.py) -/

/-- A USD attribute value: three doubles, carried exactly as rationals. -/
abbrev Vec3 := ℚ × ℚ × ℚ

/-- The time-sample map of one USD xform op, as a key-value list with
distinct frame keys.  `translate_op.Set(v, frame)` stores `v` at `frame`,
replacing any earlier value at the same frame. -/
def setTimeSample (ts : List (Int × Vec3)) (frame : Int) (v : Vec3) : List (Int × Vec3) :=
  match ts with
  | [] => [(frame, v)]
  | (g, w) :: rest =>
    if g = frame then (g, v) :: rest else (g, w) :: setTimeSample rest frame v

/-- The translate value written for one sample (usd_export.py lines 63-71). -/
def translateOf (s : Sample) : Vec3 :=
  (s.xpos, s.ypos, s.zpos)

/-- The rotate-XYZ value written for one sample (usd_export.py lines 67-72). -/
def rotateOf (s : Sample) : Vec3 :=
  (s.pitch, s.yaw, s.roll)

/-- Embeds the sample loop of `UsdArchiver.run` (usd_export.py lines 62-77)
for one op: starting from the freshly added (empty) op, write the projected
value of each captured sample at its `TimecodeKey` frame, in buffer order. -/
def writeOp (f : Sample → Vec3) (data : List Sample) : List (Int × Vec3) :=
  data.foldl (fun ts s => setTimeSample ts s.timecodeKey (f s)) []

/-- The time samples carried by the translate op after `UsdArchiver.run`. -/
def translateTimeSamples (data : List Sample) : List (Int × Vec3) :=
  writeOp translateOf data

/-- The time samples carried by the rotate-XYZ op after `UsdArchiver.run`. -/
def rotateTimeSamples (data : List Sample) : List (Int × Vec3) :=
  writeOp rotateOf data

/-- Look up the value stored at a frame of an op's time-sample map. -/
def lookupFrame (k : Int) : List (Int × Vec3) → Option Vec3
  | [] => none
  | (g, w) :: rest => if g = k then some w else lookupFrame k rest

/-- The value of the last sample in `data` carrying frame key `k` (scanning
left to right and letting later samples overwrite earlier ones). -/
def lastSampleValue (f : Sample → Vec3) (k : Int) (data : List Sample) : Option Vec3 :=
  data.foldl (fun acc s => if s.timecodeKey = k then some (f s) else acc) none

/-- A pair of samples sharing one frame key, exercising the overwrite case. -/
def sampleA : Sample :=
  { xpos := 1, ypos := 2, zpos := 3, pitch := 0, yaw := 0, roll := 0, timecodeKey := 5 }

/-- Second sample at the same frame key as `sampleA`. -/
def sampleB : Sample :=
  { xpos := 4, ypos := 5, zpos := 6, pitch := 1, yaw := 1, roll := 1, timecodeKey := 5 }

/-! ## Recording lifecycle and the catalog row (server.py, recording.py) -/

/-- The catalog columns of one Take row that the lifecycle claims reason
about: `valid`, `timecode_out_frames`, `usd_export_location`. -/
structure TakeRow where
  valid : Bool
  timecode_out_frames : Option Int
  usd_export_location : Option String
deriving DecidableEq, Repr

/-- Phase of the recording lifecycle of a single take: idle before start,
capturing until the stop signal, archiving until the USD write finishes. -/
inductive RecPhase
  | idle
  | capturing
  | archiving
  | done
deriving DecidableEq, Repr

/-- State of one take's lifecycle: its catalog row (if inserted) and phase. -/
structure LifecycleState where
  row : Option TakeRow
  phase : RecPhase
deriving DecidableEq, Repr

/-- The lifecycle events, in the order the code performs the corresponding
catalog writes: `begin_recording` inserts the row and starts capture
(server.py lines 110-126); `end_recording` updates the row with
`valid=True` and `timecode_out_frames` and sets the stop signal
(server.py lines 148-160); `Recording.update_database_with_archive_path`
records `usd_export_location` only after `archive_captured_data` returns
(recording.py lines 43-53 and 143-147). -/
inductive RecEvent
  | startRec
  | stopRec (timecodeOut : Int)
  | archiveDone (path : String)
deriving DecidableEq, Repr

/-- Initial lifecycle state: no catalog row, nothing recording. -/
def initLifecycle : LifecycleState :=
  { row := none, phase := RecPhase.idle }

/-- One lifecycle transition.  `startRec` inserts the `TakeCreation` row,
whose `valid` field defaults to `False` and whose out-timecode and archive
location are absent (models.py lines 22-35, server.py lines 113-124).
`stopRec` applies the `TakeUpdate` built by `end_recording`: `valid=True`
and `timecode_out_frames` set, `usd_export_location` untouched
(server.py lines 148-159).  `archiveDone` applies the update of
`Recording.update_database_with_archive_path` (recording.py lines 143-147). -/
def lifecycleStep (st : LifecycleState) (e : RecEvent) : Option LifecycleState :=
  match e, st.phase with
  | RecEvent.startRec, RecPhase.idle =>
    some { row := some { valid := false, timecode_out_frames := none,
                         usd_export_location := none },
           phase := RecPhase.capturing }
  | RecEvent.stopRec tOut, RecPhase.capturing =>
    match st.row with
    | some r =>
      some { row := some { r with valid := true, timecode_out_frames := some tOut },
             phase := RecPhase.archiving }
    | none => none
  | RecEvent.archiveDone p, RecPhase.archiving =>
    match st.row with
    | some r =>
      some { row := some { r with usd_export_location := some p },
             phase := RecPhase.done }
    | none => none
  | _, _ => none

/-- Run a sequence of lifecycle events from the initial state. -/
def runEvents (es : List RecEvent) : Option LifecycleState :=
  es.foldl (fun acc e => acc.bind (fun st => lifecycleStep st e)) (some initLifecycle)

/-- The part of the spec's catalog invariant that the code maintains:
a `valid=true` row has its out-timecode, and the archive location appears
only once the archive write has completed. -/
def lifecycleInv (st : LifecycleState) : Prop :=
  ∀ r, st.row = some r →
    (r.valid = true → r.timecode_out_frames.isSome = true) ∧
    (r.usd_export_location.isSome = true → st.phase = RecPhase.done)

/-! ## Recording-start endpoint (server.py, database_utils.py) -/

/-- Outcome of the SQL INSERT attempted by `database_utils.insert_take`. -/
inductive SqlOutcome
  | success
  | operationalError
  | integrityError
deriving DecidableEq, Repr

/-- The row inserted by `begin_recording`: `TakeCreation.valid` defaults to
`False`, no out-timecode, no archive location (models.py lines 22-35). -/
def newTakeRow : TakeRow :=
  { valid := false, timecode_out_frames := none, usd_export_location := none }

/-- Embeds `database_utils.insert_take` (database_utils.py lines 309-344):
both `sqlite3.OperationalError` and `sqlite3.IntegrityError` are caught,
logged, and turned into a `None` return value — the caller sees no error. -/
def insert_take (outcome : SqlOutcome) (row : TakeRow) : Option TakeRow :=
  match outcome with
  | SqlOutcome.success => some row
  | SqlOutcome.operationalError => none
  | SqlOutcome.integrityError => none

/-- Response of the `/recording/.../start` endpoint: either an
`HTTPException` value with its status code, or the
`responseStarted result` dict `\x7b"status": "started", "result": result\x7d`. -/
inductive StartResponse
  | httpError (statusCode : Nat)
  | responseStarted (result : Option TakeRow)
deriving DecidableEq, Repr

/-- Embeds `begin_recording` (server.py lines 88-128) together with the
session-manager effect of `start_recording` (recording.py lines 166-174):
the returned pair is the HTTP response and whether a recording is active
afterwards.  After the two guard checks, `insert_take` is called and its
result is *not* inspected: `recording_manager.start_recording` runs and the
started response is returned regardless of the insert outcome. -/
def begin_recording (alreadyRecording : Bool) (takeExists : Bool)
    (insertOutcome : SqlOutcome) : StartResponse × Bool :=
  if alreadyRecording then (StartResponse.httpError 400, true)
  else if takeExists then (StartResponse.httpError 400, false)
  else (StartResponse.responseStarted (insert_take insertOutcome newTakeRow), true)

/-! ## Concrete inputs used by witnesses and counterexamples -/

/-- A checksum-valid 29-byte FreeD datagram: header `0xD1`, camera id 1,
all transform bytes zero, checksum byte 110 (the sum 209 + 1 + 110 = 320 is
64 mod 256). -/
def validFreeDDatagram : List Nat :=
  [0xD1, 1, 0, 0, 0, 0, 0, 0, 0, 0, 0, 0, 0, 0, 0, 0, 0, 0, 0, 0,
   0, 0, 0, 0, 0, 0, 0, 0, 110]

/-- A truncated 28-byte datagram whose first byte is the FreeD header. -/
def shortFreeDDatagram : List Nat :=
  0xD1 :: List.replicate 27 0

/-- A 29-byte frame for the checksum witness: `0x40` then 28 zero bytes. -/
def checksumWitnessBytes : List Nat :=
  0x40 :: List.replicate 28 0

/-- A concrete in-range raw packet, with the most-negative pan value. -/
def rawPacket0 : FreeDRaw :=
  { camId := 3, pan := -8388608, tilt := 16384, roll := -1,
    x := 64, y := -64, z := 0, zoom := 1000, focus := 2000,
    spare := 513, checksum := 77 }

/-! ## Checksum characterisation (C2) -/

theorem checksumStep_foldl_emod (l : List Nat) :
    ∀ a : Int, (l.foldl checksumStep a) % 256 = (a - byteSum l) % 256 := by
  induction l with
  | nil => intro a; simp [byteSum]
  | cons b t ih =>
    intro a
    have h1 : (b :: t).foldl checksumStep a = t.foldl checksumStep ((a - (b : Int)) % 256) := rfl
    have h2 : byteSum (b :: t) = (b : Int) + byteSum t := by simp [byteSum]
    rw [h1, ih, h2]
    omega

theorem checksumStep_foldl_range (l : List Nat) :
    ∀ a : Int, l ≠ [] → 0 ≤ l.foldl checksumStep a ∧ l.foldl checksumStep a < 256 := by
  induction l with
  | nil => intro a h; exact absurd rfl h
  | cons b t ih =>
    intro a _
    cases t with
    | nil =>
      have : (b :: ([] : List Nat)).foldl checksumStep a = (a - (b : Int)) % 256 := rfl
      rw [this]
      omega
    | cons c u =>
      have h1 : (b :: c :: u).foldl checksumStep a
          = (c :: u).foldl checksumStep ((a - (b : Int)) % 256) := rfl
      rw [h1]
      exact ih _ (by simp)

/-- C2: for every 29-byte frame, the checksum loop of
`FreeDPacket.checksum_valid` accepts exactly when `0x40` minus the sum of
all the bytes is `0` modulo 256. -/
theorem checksum_valid_iff_sum_mod (bytes : List Nat) (h : bytes.length = 29) :
    checksum_valid bytes = true ↔ (0x40 - byteSum bytes) % 256 = 0 := by
  have hne : bytes ≠ [] := by
    intro hnil
    rw [hnil] at h
    simp at h
  have h1 := checksumStep_foldl_emod bytes 0x40
  have h2 := checksumStep_foldl_range bytes 0x40 hne
  have h3 : checksumFold bytes = (0x40 - byteSum bytes) % 256 := by
    have h4 : checksumFold bytes % 256 = checksumFold bytes := Int.emod_eq_of_lt h2.1 h2.2
    rw [← h4]
    exact h1
  simp [checksum_valid, h3, beq_iff_eq]

/-- Witness for C2 at a concrete 29-byte frame. -/
theorem checksum_valid_iff_sum_mod_witness :
    checksumWitnessBytes.length = 29 ∧
    (checksum_valid checksumWitnessBytes = true ↔
      (0x40 - byteSum checksumWitnessBytes) % 256 = 0) :=
  ⟨by decide, checksum_valid_iff_sum_mod checksumWitnessBytes (by decide)⟩

/-! ## Timecode seconds-of-day (C3) -/

/-- C3: `get_system_timecode_as_frames` adds the raw microsecond count as
whole seconds.  At wall-clock 00:00:00.500000 the code's seconds value is
500000 while the spec's seconds-of-day formula gives 1/2, so the
sub-second term contributes far more than one second. -/
theorem system_timecode_adds_raw_microseconds :
    systemTimeSeconds 0 0 0 500000 = 500000 ∧
    specSecondsOfDay 0 0 0 500000 = 1 / 2 ∧
    ((systemTimeSeconds 0 0 0 500000 : ℚ) ≠ specSecondsOfDay 0 0 0 500000) := by
  refine ⟨rfl, ?_, ?_⟩ <;> norm_num [systemTimeSeconds, specSecondsOfDay]

/-! ## Caching a valid packet kills the capture loop (C1) -/

/-- C1: the concrete datagram `validFreeDDatagram` parses to a FreeD packet
and passes checksum validation, yet one iteration of the receive loop takes
the exception path: `cache_parsed_data` calls `.append` on the dict that
`BaseCaptureThread.__init__` installed as `captured_tracking_data`, raising
`AttributeError`, so no sample is appended and the loop terminates instead
of continuing. -/
theorem capture_valid_packet_takes_exception_path :
    parse_packet validFreeDDatagram = some (FreeDPacket.init validFreeDDatagram) ∧
    validate_parsed_data (parse_packet validFreeDDatagram) = Except.ok true ∧
    runStep initFreeDThread validFreeDDatagram 0 =
      StepResult.raised initFreeDThread PyErr.attributeError :=
  ⟨rfl, rfl, rfl⟩

/-! ## Short packets crash validation (C9) -/

/-- C9: a 28-byte datagram with the FreeD header decodes without raising,
but the resulting object has no attributes at all (nothing marks it
invalid); validation then reads `packetBytes` on it, raising
`AttributeError`, and the receive loop takes the exception path and
terminates instead of dropping the datagram and continuing. -/
theorem short_packet_validation_raises :
    shortFreeDDatagram.length = 28 ∧
    FreeDPacket.init shortFreeDDatagram = ⟨none⟩ ∧
    validate_parsed_data (parse_packet shortFreeDDatagram) =
      Except.error PyErr.attributeError ∧
    runStep initFreeDThread shortFreeDDatagram 0 =
      StepResult.raised initFreeDThread PyErr.attributeError :=
  ⟨by decide, rfl, rfl, rfl⟩

/-! ## The recording session's capture consolidation never runs (C5) -/

/-- C5: with any configured device, `Recording.start_capturing_data` raises
`NameError` on its first loop iteration (the undefined `thread_devices`),
so no capture thread is started, joined, or consolidated — the claimed
device-to-samples mapping is never built. -/
theorem start_capturing_data_raises_nameError :
    start_capturing_data [("CamA", { port := 40000, trackingProtocol := "FreeD" })] =
      Except.error PyErr.nameError :=
  rfl

/-! ## Port conflicts crash the capture supervisor (C8) -/

/-- C8: two devices configured on the same port make
`create_capture_threads` raise `TypeError` (from `issubclass` applied to a
thread instance) instead of logging the conflict, skipping the device and
returning the thread list. -/
theorem capture_factory_port_conflict_raises_typeError :
    create_capture_threads
      [("CamA", { port := 40000, trackingProtocol := "FreeD" }),
       ("CamB", { port := 40000, trackingProtocol := "FreeD" })] =
      Except.error PyErr.typeError :=
  rfl

/-! ## Insert failures at recording start are swallowed (C10) -/

/-- C10: when the catalog INSERT fails (here with an integrity error, as on
a duplicate key), `begin_recording` still starts the recording — the
session manager is active afterwards — and answers the client with the
started response carrying a null result, not a 400/500 error. -/
theorem begin_recording_insert_failure_reports_started :
    begin_recording false false SqlOutcome.integrityError =
      (StartResponse.responseStarted none, true) :=
  rfl

/-! ## USD time-sample counting (C6) -/

theorem setTimeSample_keys (ts : List (Int × Vec3)) (k : Int) (v : Vec3) :
    (setTimeSample ts k v).map Prod.fst =
      if k ∈ ts.map Prod.fst then ts.map Prod.fst else ts.map Prod.fst ++ [k] := by
  induction ts with
  | nil => simp [setTimeSample]
  | cons p rest ih =>
    obtain ⟨g, w⟩ := p
    by_cases hg : g = k
    · subst hg
      simp [setTimeSample]
    · have hgk : ¬ k = g := fun h => hg h.symm
      simp only [setTimeSample, if_neg hg, List.map_cons, List.mem_cons, hgk, false_or]
      rw [ih]
      split_ifs with hk
      · rfl
      · simp

theorem setTimeSample_keys_toFinset (ts : List (Int × Vec3)) (k : Int) (v : Vec3) :
    ((setTimeSample ts k v).map Prod.fst).toFinset =
      insert k (ts.map Prod.fst).toFinset := by
  rw [setTimeSample_keys]
  split_ifs with h
  · exact (Finset.insert_eq_self.mpr (List.mem_toFinset.mpr h)).symm
  · simp [List.toFinset_append, Finset.union_comm, Finset.insert_eq]

theorem setTimeSample_keys_nodup (ts : List (Int × Vec3)) (k : Int) (v : Vec3)
    (h : (ts.map Prod.fst).Nodup) : ((setTimeSample ts k v).map Prod.fst).Nodup := by
  rw [setTimeSample_keys]
  split_ifs with hk
  · exact h
  · simp [List.nodup_append, h, hk]

theorem writeOp_go_keys_toFinset (f : Sample → Vec3) (data : List Sample) :
    ∀ ts : List (Int × Vec3),
      ((data.foldl (fun ts s => setTimeSample ts s.timecodeKey (f s)) ts).map
          Prod.fst).toFinset =
        (ts.map Prod.fst).toFinset ∪ (data.map (fun s => s.timecodeKey)).toFinset := by
  induction data with
  | nil => intro ts; simp
  | cons s rest ih =>
    intro ts
    simp only [List.foldl_cons, List.map_cons, List.toFinset_cons]
    rw [ih (setTimeSample ts s.timecodeKey (f s)), setTimeSample_keys_toFinset,
      Finset.insert_union, Finset.union_insert]

theorem writeOp_go_keys_nodup (f : Sample → Vec3) (data : List Sample) :
    ∀ ts : List (Int × Vec3), (ts.map Prod.fst).Nodup →
      ((data.foldl (fun ts s => setTimeSample ts s.timecodeKey (f s)) ts).map
          Prod.fst).Nodup := by
  induction data with
  | nil => intro ts h; exact h
  | cons s rest ih =>
    intro ts h
    simp only [List.foldl_cons]
    exact ih _ (setTimeSample_keys_nodup ts s.timecodeKey (f s) h)

theorem writeOp_length (f : Sample → Vec3) (data : List Sample) :
    (writeOp f data).length = (data.map (fun s => s.timecodeKey)).toFinset.card := by
  have h1 := writeOp_go_keys_toFinset f data []
  have h2 := writeOp_go_keys_nodup f data [] (by simp)
  calc (writeOp f data).length
      = ((writeOp f data).map Prod.fst).length := (List.length_map _ _).symm
    _ = ((writeOp f data).map Prod.fst).toFinset.card :=
        (List.toFinset_card_of_nodup h2).symm
    _ = (data.map (fun s => s.timecodeKey)).toFinset.card := by
        rw [show (writeOp f data) =
            data.foldl (fun ts s => setTimeSample ts s.timecodeKey (f s)) [] from rfl, h1]
        simp

theorem writeOp_keys_toFinset (f : Sample → Vec3) (data : List Sample) :
    ((writeOp f data).map Prod.fst).toFinset =
      (data.map (fun s => s.timecodeKey)).toFinset := by
  rw [show (writeOp f data) =
      data.foldl (fun ts s => setTimeSample ts s.timecodeKey (f s)) [] from rfl,
    writeOp_go_keys_toFinset]
  simp

theorem lookupFrame_setTimeSample (k g : Int) (v : Vec3) (ts : List (Int × Vec3)) :
    lookupFrame k (setTimeSample ts g v) =
      if g = k then some v else lookupFrame k ts := by
  induction ts with
  | nil => simp [setTimeSample, lookupFrame]
  | cons p rest ih =>
    obtain ⟨a, w⟩ := p
    by_cases hag : a = g
    · subst hag
      simp only [setTimeSample, if_pos rfl, lookupFrame]
      split_ifs <;> rfl
    · simp only [setTimeSample, if_neg hag, lookupFrame]
      by_cases hak : a = k
      · subst hak
        have : ¬ g = a := fun h => hag h.symm
        simp [this]
      · simp [hak, ih]

theorem writeOp_go_lookup (f : Sample → Vec3) (data : List Sample) :
    ∀ (ts : List (Int × Vec3)) (k : Int),
      lookupFrame k (data.foldl (fun ts s => setTimeSample ts s.timecodeKey (f s)) ts) =
        data.foldl (fun acc s => if s.timecodeKey = k then some (f s) else acc)
          (lookupFrame k ts) := by
  induction data with
  | nil => intro ts k; rfl
  | cons s rest ih =>
    intro ts k
    simp only [List.foldl_cons]
    rw [ih, lookupFrame_setTimeSample]

/-- Counterexample to C6: two samples at the same frame key produce one
time sample, not two, on both the translate and the rotate op. -/
theorem usd_sample_count_counterexample :
    sampleA.timecodeKey = sampleB.timecodeKey ∧
    (translateTimeSamples [sampleA, sampleB]).length ≠ [sampleA, sampleB].length ∧
    (rotateTimeSamples [sampleA, sampleB]).length ≠ [sampleA, sampleB].length := by
  refine ⟨rfl, ?_, ?_⟩ <;> decide

/-- C6 amended: the stage carries exactly one time sample per *distinct*
`timecode_key` of the captured sequence on each of the translate and
rotate ops; the set of sample keys equals the set of the samples'
`timecode_key` values; and the value stored at a frame is that of the last
sample written there (arrival order, later samples overwrite earlier). -/
theorem usd_time_samples_per_distinct_key (data : List Sample) :
    (translateTimeSamples data).length =
      (data.map (fun s => s.timecodeKey)).toFinset.card ∧
    (rotateTimeSamples data).length =
      (data.map (fun s => s.timecodeKey)).toFinset.card ∧
    ((translateTimeSamples data).map Prod.fst).toFinset =
      (data.map (fun s => s.timecodeKey)).toFinset ∧
    ((rotateTimeSamples data).map Prod.fst).toFinset =
      (data.map (fun s => s.timecodeKey)).toFinset ∧
    (∀ k, lookupFrame k (translateTimeSamples data) = lastSampleValue translateOf k data) ∧
    (∀ k, lookupFrame k (rotateTimeSamples data) = lastSampleValue rotateOf k data) :=
  ⟨writeOp_length translateOf data, writeOp_length rotateOf data,
   writeOp_keys_toFinset translateOf data, writeOp_keys_toFinset rotateOf data,
   fun k => writeOp_go_lookup translateOf data [] k,
   fun k => writeOp_go_lookup rotateOf data [] k⟩

/-! ## Recording lifecycle invariant (C7) -/

/-- Counterexample to C7: after start followed by stop — before the
background archive completes — the catalog row is reachable with
`valid = true` while `usd_export_location` is still unset. -/
theorem valid_take_without_usd_reachable :
    runEvents [RecEvent.startRec, RecEvent.stopRec 100] =
      some { row := some { valid := true, timecode_out_frames := some 100,
                           usd_export_location := none },
             phase := RecPhase.archiving } ∧
    ({ valid := true, timecode_out_frames := some 100,
       usd_export_location := none } : TakeRow).valid = true ∧
    ({ valid := true, timecode_out_frames := some 100,
       usd_export_location := none } : TakeRow).usd_export_location = none :=
  ⟨rfl, rfl, rfl⟩

theorem lifecycleStep_preserves (st st2 : LifecycleState) (e : RecEvent)
    (hInv : lifecycleInv st) (hstep : lifecycleStep st e = some st2) :
    lifecycleInv st2 := by
  cases e with
  | startRec =>
    unfold lifecycleStep at hstep
    cases hph : st.phase <;> rw [hph] at hstep
    case idle =>
      cases hstep
      intro r hr
      cases hr
      simp
    all_goals exact Option.noConfusion hstep
  | stopRec tOut =>
    unfold lifecycleStep at hstep
    cases hph : st.phase <;> rw [hph] at hstep
    case capturing =>
      cases hrow : st.row with
      | none => rw [hrow] at hstep; exact Option.noConfusion hstep
      | some r0 =>
        rw [hrow] at hstep
        cases hstep
        intro r hr
        cases hr
        refine ⟨fun _ => rfl, fun husd => ?_⟩
        have h2 := (hInv r0 hrow).2 husd
        rw [hph] at h2
        exact RecPhase.noConfusion h2
    all_goals exact Option.noConfusion hstep
  | archiveDone p =>
    unfold lifecycleStep at hstep
    cases hph : st.phase <;> rw [hph] at hstep
    case archiving =>
      cases hrow : st.row with
      | none => rw [hrow] at hstep; exact Option.noConfusion hstep
      | some r0 =>
        rw [hrow] at hstep
        cases hstep
        intro r hr
        cases hr
        exact ⟨fun hv => (hInv r0 hrow).1 hv, fun _ => rfl⟩
    all_goals exact Option.noConfusion hstep

theorem runEvents_foldl_none (es : List RecEvent) :
    es.foldl (fun acc e => acc.bind (fun st => lifecycleStep st e)) none = none := by
  induction es with
  | nil => rfl
  | cons e rest ih => simpa using ih

theorem runEvents_go_inv (es : List RecEvent) :
    ∀ st0 st : LifecycleState, lifecycleInv st0 →
      es.foldl (fun acc e => acc.bind (fun st => lifecycleStep st e)) (some st0) = some st →
      lifecycleInv st := by
  induction es with
  | nil =>
    intro st0 st h hf
    simp only [List.foldl_nil, Option.some.injEq] at hf
    exact hf ▸ h
  | cons e rest ih =>
    intro st0 st h hf
    simp only [List.foldl_cons, Option.bind_eq_bind, Option.some_bind] at hf
    cases hstep : lifecycleStep st0 e with
    | none =>
      rw [hstep] at hf
      rw [runEvents_foldl_none] at hf
      exact absurd hf (by simp)
    | some st1 =>
      rw [hstep] at hf
      exact ih st1 st (lifecycleStep_preserves st0 st1 e h hstep) hf

/-- C7 amended: in every reachable lifecycle state, a catalog row with
`valid = true` has `timecode_out_frames` set, and `usd_export_location` is
set only once the archive write has completed — but the stop transition
itself yields `valid = true` with `usd_export_location` still unset until
(and unless) archiving finishes. -/
theorem lifecycle_invariant_amended (es : List RecEvent) (st : LifecycleState) (r : TakeRow)
    (hrun : runEvents es = some st) (hrow : st.row = some r) :
    (r.valid = true → r.timecode_out_frames.isSome = true) ∧
    (r.usd_export_location.isSome = true → st.phase = RecPhase.done) := by
  have hInit : lifecycleInv initLifecycle := by
    intro r hr
    simp [initLifecycle] at hr
  exact runEvents_go_inv es initLifecycle st hInit hrun r hrow

/-- Witness for C7 amended at the full start-stop-archive trace. -/
theorem lifecycle_invariant_amended_witness :
    runEvents [RecEvent.startRec, RecEvent.stopRec 5, RecEvent.archiveDone "x"] =
      some { row := some { valid := true, timecode_out_frames := some 5,
                           usd_export_location := some "x" },
             phase := RecPhase.done } ∧
    ({ row := some { valid := true, timecode_out_frames := some 5,
                     usd_export_location := some "x" },
       phase := RecPhase.done } : LifecycleState).row =
      some { valid := true, timecode_out_frames := some 5,
             usd_export_location := some "x" } ∧
    ((({ valid := true, timecode_out_frames := some 5,
         usd_export_location := some "x" } : TakeRow).valid = true →
        ({ valid := true, timecode_out_frames := some 5,
           usd_export_location := some "x" } : TakeRow).timecode_out_frames.isSome = true) ∧
      (({ valid := true, timecode_out_frames := some 5,
          usd_export_location := some "x" } : TakeRow).usd_export_location.isSome = true →
        ({ row := some { valid := true, timecode_out_frames := some 5,
                         usd_export_location := some "x" },
           phase := RecPhase.done } : LifecycleState).phase = RecPhase.done)) :=
  ⟨rfl, rfl,
    lifecycle_invariant_amended
      [RecEvent.startRec, RecEvent.stopRec 5, RecEvent.archiveDone "x"]
      { row := some { valid := true, timecode_out_frames := some 5,
                      usd_export_location := some "x" },
        phase := RecPhase.done }
      { valid := true, timecode_out_frames := some 5, usd_export_location := some "x" }
      rfl rfl⟩

/-! ## FreeD wire round trip (C4) -/

theorem bytes3ToInt_int24 (r : Int) (h1 : -8388608 ≤ r) (h2 : r < 8388608) :
    bytes3ToInt ((r % 16777216).toNat / 65536) ((r % 16777216).toNat / 256 % 256)
      ((r % 16777216).toNat % 256) = r := by
  unfold bytes3ToInt bytes3ToNat
  split <;> omega

theorem get_freed_float_int24 (r : Int) (h1 : -8388608 ≤ r) (h2 : r < 8388608) (frac : Nat) :
    get_freed_float ((r % 16777216).toNat / 65536) ((r % 16777216).toNat / 256 % 256)
      ((r % 16777216).toNat % 256) frac = (r : ℚ) / ((2 : ℚ) ^ frac) := by
  unfold get_freed_float
  rw [bytes3ToInt_int24 r h1 h2]

theorem bytes3ToNat_nat24 (n : Nat) :
    bytes3ToNat (n / 65536) (n / 256 % 256) (n % 256) = n := by
  unfold bytes3ToNat
  omega

theorem bytes2ToNat_nat16 (n : Nat) :
    bytes2ToNat (n / 256) (n % 256) = n := by
  unfold bytes2ToNat
  omega

/-- C4: decoding the spec-layout wire encoding of any in-range FreeD packet
through the source decoder (`parse_packet` and `FreeDPacket.__init__`)
recovers exactly the packet's wire fields: the camera id, the fixed-point
rotations over `2^15`, the fixed-point positions over `2^6`, and the
unsigned zoom, focus, spare and checksum fields. -/
theorem freed_decode_encode_roundtrip (p : FreeDRaw) (h : p.InRange) :
    parse_packet (encodeFreeD p) = some ⟨some (fieldsOfRaw p)⟩ := by
  obtain ⟨hc, hp1, hp2, ht1, ht2, hr1, hr2, hx1, hx2, hy1, hy2, hz1, hz2, hzm, hf, hs, hck⟩ := h
  simp only [parse_packet, encodeFreeD, int24Bytes, nat24Bytes, nat16Bytes,
    List.cons_append, List.nil_append, List.head?_cons, fieldsOfRaw]
  norm_num [FreeDPacket.init]
  exact ⟨get_freed_float_int24 p.pan hp1 hp2 15, get_freed_float_int24 p.tilt ht1 ht2 15,
    get_freed_float_int24 p.roll hr1 hr2 15, get_freed_float_int24 p.x hx1 hx2 6,
    get_freed_float_int24 p.y hy1 hy2 6, get_freed_float_int24 p.z hz1 hz2 6,
    bytes3ToNat_nat24 p.zoom, bytes3ToNat_nat24 p.focus,
    bytes2ToNat_nat16 p.spare⟩

/-- Witness for C4 at a concrete in-range packet (most-negative pan). -/
theorem freed_decode_encode_roundtrip_witness :
    rawPacket0.InRange ∧
    parse_packet (encodeFreeD rawPacket0) = some ⟨some (fieldsOfRaw rawPacket0)⟩ :=
  ⟨by decide, freed_decode_encode_roundtrip rawPacket0 (by decide)⟩

end Blackhole
